import Mathlib

/-!
Verification development for two Conan package recipes
(`recipes/gdk-pixbuf/all/conanfile.py` and
`recipes/libiconv/all/conanfile.py`).

The recipes are shallowly embedded: each Conan stage method becomes a pure
Lean function on an explicit state (settings, version, option set, file
trees).  Option deletion (`del self.options.x`) is modelled by fields of
type `Option _` set to `none`.  Methods that can raise return `Except`.
Conan framework primitives that the recipes call but whose code is not part
of this repository (`tools.replace_in_file`, `tools.collect_libs`, the
runtime's option assignment) are modelled from the spec and marked as such
in their doc comments.
-/

namespace ConanCCI

/-- Target operating systems appearing in the two recipes. -/
inductive OS
| Windows
| Linux
| Macos
| FreeBSD
| otherOS
deriving DecidableEq

/-- Target architectures appearing in the two recipes. -/
inductive Arch
| x86
| x86_64
| otherArch
deriving DecidableEq

/-- Compiler identities appearing in the two recipes.
`VisualStudio` is the settings value "Visual Studio". -/
inductive Compiler
| VisualStudio
| msvc
| gcc
| clang
| appleClang
| otherCompiler
deriving DecidableEq

/-- Ambient build settings (`self.settings`): os, arch, compiler identity and
version, build type, plus the compiler sub-settings `libcxx` and `cppstd`
which both recipes delete in `configure` (modelled as `Option` fields). -/
structure Settings where
  os : OS
  arch : Arch
  compiler : Compiler
  compilerVersion : List Nat
  buildType : String
  libcxx : Option String
  cppstd : Option String
deriving DecidableEq

/-- `tools.Version` comparison `a >= b` on dotted numeric versions,
lexicographic with missing components read as zero. -/
def verGE : List Nat → List Nat → Bool
  | [], [] => true
  | [], b :: bs => if b = 0 then verGE [] bs else false
  | _ :: _, [] => true
  | a :: as, b :: bs =>
    if a > b then true
    else if a < b then false
    else verGE as bs

/-- Errors a recipe run can surface. -/
inductive ConanError
| invalidConfiguration (msg : String)
| optionNotExists (name : String)
| fileNotFound (path : String)
| replaceTargetMissing (path search : String)
| renameMissing (path : String)
deriving DecidableEq

/-- A pinned dependency requirement: (package name, exact version). -/
structure Requirement where
  name : String
  version : String
deriving DecidableEq

/-- `with_libjpeg` option domain: ["libjpeg", "libjpeg-turbo", False]. -/
inductive Libjpeg
| libjpeg
| libjpegTurbo
| off
deriving DecidableEq

/-- The gdk-pixbuf option set.  `fPIC` and `with_jasper` can be deleted by
`config_options`/`configure`, hence `Option Bool`; the remaining options are
never deleted. -/
structure GdkOptions where
  shared : Bool
  fPIC : Option Bool
  with_libpng : Bool
  with_libtiff : Bool
  with_libjpeg : Libjpeg
  with_jasper : Option Bool
  with_introspection : Bool
deriving DecidableEq

/-- gdk-pixbuf `config_options`: on Windows delete `fPIC`; for version
>= 2.42.0 delete `with_jasper`. -/
def gdk_config_options (s : Settings) (v : List Nat) (o : GdkOptions) : GdkOptions :=
  let o := if s.os = OS.Windows then { o with fPIC := none } else o
  if verGE v [2, 42, 0] then { o with with_jasper := none } else o

/-- gdk-pixbuf `configure`: if `shared` delete `fPIC`; delete
`compiler.libcxx` and `compiler.cppstd`; raise `ConanInvalidConfiguration`
on Macos. -/
def gdk_configure (s : Settings) (o : GdkOptions) :
    Except ConanError (Settings × GdkOptions) :=
  let o := if o.shared then { o with fPIC := none } else o
  let s := { s with libcxx := none, cppstd := none }
  if s.os = OS.Macos then
    Except.error (ConanError.invalidConfiguration
      "This package does not support Macos currently")
  else
    Except.ok (s, o)

/-- The full state a gdk-pixbuf recipe invocation carries: ambient settings,
the recipe version, and the live option set. -/
structure GdkRecipe where
  settings : Settings
  version : List Nat
  options : GdkOptions
deriving DecidableEq

/-- gdk-pixbuf `requirements`: glib unconditionally; libpng, libtiff, a
libjpeg variant and jasper conditionally on the corresponding options
(`get_safe("with_jasper")` is truthy only when the option is live and True). -/
def gdk_requirements (r : GdkRecipe) : List Requirement :=
  [⟨"glib", "2.70.4"⟩]
  ++ (if r.options.with_libpng then [⟨"libpng", "1.6.37"⟩] else [])
  ++ (if r.options.with_libtiff then [⟨"libtiff", "4.3.0"⟩] else [])
  ++ (match r.options.with_libjpeg with
      | Libjpeg.libjpegTurbo => [⟨"libjpeg-turbo", "2.1.2"⟩]
      | Libjpeg.libjpeg => [⟨"libjpeg", "9d"⟩]
      | Libjpeg.off => [])
  ++ (if r.options.with_jasper = some true then [⟨"jasper", "2.0.33"⟩] else [])

/-- gdk-pixbuf `build_requirements`: meson and pkgconf unconditionally,
gobject-introspection when `with_introspection` is set. -/
def gdk_build_requirements (r : GdkRecipe) : List Requirement :=
  [⟨"meson", "0.61.2"⟩, ⟨"pkgconf", "1.7.4"⟩]
  ++ (if r.options.with_introspection then
        [⟨"gobject-introspection", "1.70.0"⟩] else [])

/-! ### Source tree and textual edits -/

/-- A fetched source tree: association list from file path to file content,
the content split into segments (the granularity at which the recipes'
match-and-replace edits operate). -/
def SourceTree : Type := List (String × List String)

instance : DecidableEq SourceTree := by
  unfold SourceTree
  infer_instance

/-- Look a file up in a source tree by path. -/
def treeLookup : SourceTree → String → Option (List String)
  | [], _ => none
  | (p, c) :: rest, q => if p = q then some c else treeLookup rest q

/-- Replace the content stored under a path. -/
def treeSet : SourceTree → String → List String → SourceTree
  | [], _, _ => []
  | (p, c) :: rest, q, newc =>
    if p = q then (p, newc) :: treeSet rest q newc
    else (p, c) :: treeSet rest q newc

/-- Modelled from the spec: Conan `tools.replace_in_file` (framework code,
not part of this repository).  An exact match-and-replace: every segment
equal to `search` is rewritten to `repl`; if the file is missing or no
segment matches, the edit fails loudly instead of silently no-opping. -/
def replace_in_file (t : SourceTree) (path search repl : String) :
    Except ConanError SourceTree :=
  match treeLookup t path with
  | none => Except.error (ConanError.fileNotFound path)
  | some content =>
    if search ∈ content then
      Except.ok (treeSet t path
        (content.map (fun seg => if seg = search then repl else seg)))
    else
      Except.error (ConanError.replaceTargetMissing path search)

/-- One textual source edit: file path, exact match target, replacement. -/
structure Edit where
  path : String
  search : String
  repl : String
deriving DecidableEq

/-- Apply one edit through `replace_in_file`. -/
def applyEdit (t : SourceTree) (e : Edit) : Except ConanError SourceTree :=
  replace_in_file t e.path e.search e.repl

/-- Apply a sequence of edits in order, stopping at the first failure. -/
def applyEdits : SourceTree → List Edit → Except ConanError SourceTree
  | t, [] => Except.ok t
  | t, e :: es =>
    match applyEdit t e with
    | Except.error err => Except.error err
    | Except.ok t' => applyEdits t' es

/-- Every edit of a sequence found its match target at the moment it was
applied — the negation of any edit silently no-opping. -/
def EditsAllFound : SourceTree → List Edit → Prop
  | _, [] => True
  | t, e :: es =>
    (∃ c, treeLookup t e.path = some c ∧ e.search ∈ c) ∧
    ∀ t', applyEdit t e = Except.ok t' → EditsAllFound t' es

/-- The edits gdk-pixbuf `source` performs after fetching, in program
order: comment out the tests and thumbnailer subdirs, force the
`gmodule_supported` probe result (the match target depends on the
version), and for version >= 2.42.6 fix `close_fds` in the post-install
helper. -/
def gdk_edits (v : List Nat) : List Edit :=
  [⟨"meson.build", "subdir(\x27tests\x27)", "#subdir(\x27tests\x27)"⟩,
   ⟨"meson.build", "subdir(\x27thumbnailer\x27)", "#subdir(\x27thumbnailer\x27)"⟩,
   ⟨"meson.build",
    if verGE v [2, 42, 6] then
      "gmodule_dep.get_variable(pkgconfig: \x27gmodule_supported\x27)"
    else
      "gmodule_dep.get_pkgconfig_variable(\x27gmodule_supported\x27)",
    "\x27true\x27"⟩]
  ++ (if verGE v [2, 42, 6] then
        [⟨"build-aux/post-install.py", "close_fds=True",
          "close_fds=(sys.platform != \x27win32\x27)"⟩]
      else [])

/-- gdk-pixbuf `source` applied to the freshly fetched tree: the sequence
of `tools.replace_in_file` edits (the fetch itself, checksummed by the host
runtime, supplies `t`). -/
def gdk_source (v : List Nat) (t : SourceTree) : Except ConanError SourceTree :=
  applyEdits t (gdk_edits v)

/-- The textual edits libiconv `_patch_sources` performs (after the
data-file patches): rewrite the `-install_name` flag in `configure` and
`libcharset/configure`. -/
def libiconv_edits : List Edit :=
  [⟨"configure", "-install_name \\$rpath/", "-install_name @rpath/"⟩,
   ⟨"libcharset/configure", "-install_name \\$rpath/", "-install_name @rpath/"⟩]

/-- libiconv `_patch_sources` textual part applied to the fetched tree. -/
def libiconv_patch_sources (t : SourceTree) : Except ConanError SourceTree :=
  applyEdits t libiconv_edits

/-! ### Run pipeline (gdk-pixbuf) -/

/-- Recipe lifecycle stages, in the fixed order the host runtime calls
them. -/
inductive Stage
| configOptionsStage
| configureStage
| sourceStage
deriving DecidableEq

/-- The gdk-pixbuf run through the source-acquisition stage, recording
which stages executed.  `upstream` is the tree the checksummed fetch would
produce.  The pipeline short-circuits on the first error, so a configure
error means the source stage never runs. -/
def gdk_run_trace (s : Settings) (v : List Nat) (o : GdkOptions)
    (upstream : SourceTree) :
    List Stage × Except ConanError (Settings × GdkOptions × SourceTree) :=
  let o1 := gdk_config_options s v o
  match gdk_configure s o1 with
  | Except.error e => ([Stage.configOptionsStage, Stage.configureStage], Except.error e)
  | Except.ok (s2, o2) =>
    match gdk_source v upstream with
    | Except.error e =>
      ([Stage.configOptionsStage, Stage.configureStage, Stage.sourceStage],
       Except.error e)
    | Except.ok t' =>
      ([Stage.configOptionsStage, Stage.configureStage, Stage.sourceStage],
       Except.ok (s2, o2, t'))

/-! ### Option assignment by the host runtime -/

/-- Modelled from the spec: the host package-manager runtime assigns a
user-requested value to a recipe option after `config_options` has pruned
the option set; requesting an option that has been deleted is a
configuration error (the option does not exist for that version), not a
silent no-op. -/
def gdk_requestWithJasper (o : GdkOptions) (b : Bool) :
    Except ConanError GdkOptions :=
  match o.with_jasper with
  | none => Except.error (ConanError.optionNotExists "with_jasper")
  | some _ => Except.ok { o with with_jasper := some b }

/-! ### libiconv recipe -/

/-- The libiconv option set; `fPIC` can be deleted. -/
structure IconvOptions where
  shared : Bool
  fPIC : Option Bool
deriving DecidableEq

/-- libiconv `_is_msvc`: compiler is "Visual Studio" or "msvc". -/
def libiconv_is_msvc (s : Settings) : Bool :=
  s.compiler = Compiler.VisualStudio || s.compiler = Compiler.msvc

/-- libiconv `_is_clang_cl`: compiler is clang and the target OS is
Windows. -/
def libiconv_is_clang_cl (s : Settings) : Bool :=
  s.compiler = Compiler.clang && s.os = OS.Windows

/-- libiconv `config_options`: on Windows delete `fPIC`. -/
def libiconv_config_options (s : Settings) (o : IconvOptions) : IconvOptions :=
  if s.os = OS.Windows then { o with fPIC := none } else o

/-- libiconv `configure`: if `shared` delete `fPIC`; delete
`compiler.libcxx` and `compiler.cppstd`.  Never raises. -/
def libiconv_configure (s : Settings) (o : IconvOptions) :
    Settings × IconvOptions :=
  let o := if o.shared then { o with fPIC := none } else o
  ({ s with libcxx := none, cppstd := none }, o)

/-- What libiconv `_configure_autotools` passes to autotools: the cross
host triple, the explicit `build` argument (`False` on MSVC-like
toolchains), the configure argument list and extra compiler flags. -/
structure AutotoolsConfig where
  host : Option String
  buildArg : Option Bool
  args : List String
  flags : List String
deriving DecidableEq

/-- libiconv `_configure_autotools`: on MSVC-like toolchains set
`build = False` and pick the host triple by architecture; map
shared/static to the conventional flag pair; add `-FS` for
Visual Studio >= 12 or msvc. -/
def libiconv_configure_autotools (s : Settings) (o : IconvOptions) :
    AutotoolsConfig :=
  let host : Option String :=
    if libiconv_is_msvc s || libiconv_is_clang_cl s then
      if s.arch = Arch.x86 then some "i686-w64-mingw32"
      else if s.arch = Arch.x86_64 then some "x86_64-w64-mingw32"
      else none
    else none
  let buildArg : Option Bool :=
    if libiconv_is_msvc s || libiconv_is_clang_cl s then some false else none
  let args :=
    if o.shared then ["--disable-static", "--enable-shared"]
    else ["--enable-static", "--disable-shared"]
  let flags :=
    if (s.compiler = Compiler.VisualStudio && verGE s.compilerVersion [12])
       || s.compiler = Compiler.msvc then ["-FS"] else []
  ⟨host, buildArg, args, flags⟩

/-! ### Package stage (both recipes)

A package tree is the list of file paths (relative to the package folder,
with `/` separators) present after the build system's install step.
String prefix/suffix tests and character drops are spelled out on the
underlying character lists so that they evaluate inside the kernel. -/

/-- `pre` starts the string `s` (Python `str.startswith`). -/
def strHasPre (pre s : String) : Bool :=
  pre.data.isPrefixOf s.data

/-- `suf` ends the string `s` (Python `str.endswith`). -/
def strHasSuffix (suf s : String) : Bool :=
  suf.data.isSuffixOf s.data

/-- Drop the first `n` characters of a string. -/
def strDrop (s : String) (n : Nat) : String :=
  String.mk (s.data.drop n)

/-- Drop the last `n` characters of a string. -/
def strDropRight (s : String) (n : Nat) : String :=
  String.mk (s.data.take (s.data.length - n))

/-- Conan `tools.rmdir`: drop every file under the directory `d`. -/
def rmdirTree (t : List String) (d : String) : List String :=
  t.filter (fun p => !(strHasPre (d ++ "/") p))

/-- Conan `tools.remove_files_by_mask` for a `*.<ext>` mask: drop every
file under directory `d` (recursively; `d = ""` is the package root) whose
name ends in `ext`. -/
def removeByMask (t : List String) (d : String) (ext : String) : List String :=
  t.filter (fun p => !(strHasPre d p && strHasSuffix ext p))

/-- `os.rename` / `conan.tools.files.rename`: rewrite the path `src` to
`dst`; fails when `src` is not present. -/
def renameFile (t : List String) (src dst : String) :
    Except ConanError (List String) :=
  if src ∈ t then
    Except.ok (t.map (fun p => if p = src then dst else p))
  else
    Except.error (ConanError.renameMissing src)

/-- Whether a fallible stage succeeded. -/
def exceptOk {ε α : Type} : Except ε α → Bool
  | Except.ok _ => true
  | Except.error _ => false

/-- libiconv `package` after the autotools install produced `t`: copy the
license, remove `*.la` under `lib`, remove `share`, and on MSVC-like
shared builds rename the import libraries `iconv.dll.lib` and
`charset.dll.lib` to `iconv.lib` and `charset.lib`. -/
def libiconv_package (s : Settings) (o : IconvOptions) (t : List String) :
    Except ConanError (List String) :=
  let t1 := "licenses/COPYING.LIB" :: t
  let t2 := removeByMask t1 "lib/" ".la"
  let t3 := rmdirTree t2 "share"
  if (libiconv_is_msvc s || libiconv_is_clang_cl s) && o.shared then
    match renameFile t3 "lib/iconv.dll.lib" "lib/iconv.lib" with
    | Except.error e => Except.error e
    | Except.ok t4 =>
      match renameFile t4 "lib/charset.dll.lib" "lib/charset.lib" with
      | Except.error e => Except.error e
      | Except.ok t5 => Except.ok t5
  else
    Except.ok t3

/-- gdk-pixbuf `package` after the meson install produced `t`: copy the
license, on Visual Studio/msvc static builds rename the static archive to
the `.lib` convention, remove `lib/pkgconfig`, remove `share`, and remove
every `*.pdb`. -/
def gdk_package (s : Settings) (o : GdkOptions) (t : List String) :
    Except ConanError (List String) :=
  let t1 := "licenses/COPYING" :: t
  match
    (if (s.compiler = Compiler.VisualStudio || s.compiler = Compiler.msvc)
        && !o.shared then
       renameFile t1 "lib/libgdk_pixbuf-2.0.a" "lib/gdk_pixbuf-2.0.lib"
     else
       Except.ok t1) with
  | Except.error e => Except.error e
  | Except.ok t2 =>
    let t3 := rmdirTree t2 "lib/pkgconfig"
    let t4 := rmdirTree t3 "share"
    Except.ok (removeByMask t4 "" ".pdb")

/-! ### Info publishing -/

/-- Strip a conventional library extension from a file name. -/
def stripExt (base : String) : String :=
  if strHasSuffix ".a" base then strDropRight base 2
  else if strHasSuffix ".lib" base then strDropRight base 4
  else if strHasSuffix ".so" base then strDropRight base 3
  else if strHasSuffix ".dylib" base then strDropRight base 6
  else if strHasSuffix ".dll" base then strDropRight base 4
  else base

/-- Strip a leading platform `lib` from a library file name. -/
def stripLibPre (n : String) : String :=
  if strHasPre "lib" n then strDrop n 3 else n

/-- The library name a file under `lib/` contributes, if it is a library
binary. -/
def libFileName (p : String) : Option String :=
  if strHasPre "lib/" p then
    let base := strDrop p 4
    if strHasSuffix ".a" base || strHasSuffix ".lib" base
       || strHasSuffix ".so" base || strHasSuffix ".dylib" base
       || strHasSuffix ".dll" base then
      some (stripLibPre (stripExt base))
    else none
  else none

/-- Modelled from the spec: Conan `tools.collect_libs` (framework code, not
part of this repository) — collects the set of library binaries actually
produced in the installed package tree, reported by name with the platform
`lib` prefix and extension stripped. -/
def collect_libs (t : List String) : List String :=
  t.filterMap libFileName

/-- The downstream-visible package manifest fields the claims are about. -/
structure CppInfo where
  libs : List String
  includedirs : List String
  defines : List String
  system_libs : List String
deriving DecidableEq

/-- gdk-pixbuf `package_info` over the final package tree `t`: libraries
collected from the tree, the namespaced include dir, the static-compilation
define when not shared, and `m` on Linux/FreeBSD. -/
def gdk_package_info (s : Settings) (o : GdkOptions) (t : List String) :
    CppInfo :=
  { libs := collect_libs t
    includedirs := ["include/gdk-pixbuf-2.0"]
    defines := if o.shared then [] else ["GDK_PIXBUF_STATIC_COMPILATION"]
    system_libs :=
      if s.os = OS.Linux || s.os = OS.FreeBSD then ["m"] else [] }

/-- libiconv `package_info` over the final package tree `t`: the library
list is the fixed `["iconv", "charset"]`, not computed from `t`; include
dir is the Conan default. -/
def libiconv_package_info (_t : List String) : CppInfo :=
  { libs := ["iconv", "charset"]
    includedirs := ["include"]
    defines := []
    system_libs := [] }

/-! ### Sample settings and option values used by witnesses -/

/-- A Windows/msvc settings value. -/
def winMsvcSettings : Settings :=
  { os := OS.Windows, arch := Arch.x86_64, compiler := Compiler.msvc
    compilerVersion := [19, 3], buildType := "Release"
    libcxx := some "libstdcpp", cppstd := some "14" }

/-- A Linux/gcc settings value. -/
def linuxGccSettings : Settings :=
  { os := OS.Linux, arch := Arch.x86_64, compiler := Compiler.gcc
    compilerVersion := [11], buildType := "Release"
    libcxx := some "libstdcpp11", cppstd := none }

/-- A Macos/apple-clang settings value. -/
def macosSettings : Settings :=
  { os := OS.Macos, arch := Arch.x86_64, compiler := Compiler.appleClang
    compilerVersion := [13], buildType := "Release"
    libcxx := some "libcxx", cppstd := none }

/-- The declared gdk-pixbuf option defaults. -/
def gdkDefaultOptions : GdkOptions :=
  { shared := false, fPIC := some true, with_libpng := true
    with_libtiff := true, with_libjpeg := Libjpeg.libjpeg
    with_jasper := some false, with_introspection := false }

/-- The declared libiconv option defaults. -/
def iconvDefaultOptions : IconvOptions :=
  { shared := false, fPIC := some true }

/-! ### Claims -/

/-- C1: After the environment-probing stage (`config_options` /
`configure`), the live option set never contains an option invalid for the
target combination: for every run with target OS Windows, `fPIC` has been
deleted by `config_options` and is still absent after `configure`, i.e.
before `requirements`, `build` or `package` read any option — in both
recipes. -/
theorem fPIC_absent_on_windows :
    ∀ (s : Settings) (v : List Nat) (og : GdkOptions) (oi : IconvOptions),
    s.os = OS.Windows →
    (gdk_config_options s v og).fPIC = none ∧
    Except.map (fun p => p.2.fPIC)
      (gdk_configure s (gdk_config_options s v og)) = Except.ok none ∧
    (libiconv_config_options s oi).fPIC = none ∧
    ((libiconv_configure s (libiconv_config_options s oi)).2).fPIC = none := by
  intro s v og oi h
  unfold gdk_config_options gdk_configure libiconv_config_options
    libiconv_configure
  split_ifs <;> simp_all [Except.map]

/-- Witness for C1 at a concrete Windows/msvc run. -/
theorem fPIC_absent_on_windows_witness :
    (gdk_config_options winMsvcSettings [2, 42, 6] gdkDefaultOptions).fPIC
      = none ∧
    Except.map (fun p => p.2.fPIC)
      (gdk_configure winMsvcSettings
        (gdk_config_options winMsvcSettings [2, 42, 6] gdkDefaultOptions))
      = Except.ok none ∧
    (libiconv_config_options winMsvcSettings iconvDefaultOptions).fPIC
      = none ∧
    ((libiconv_configure winMsvcSettings
        (libiconv_config_options winMsvcSettings iconvDefaultOptions)).2).fPIC
      = none :=
  fPIC_absent_on_windows winMsvcSettings [2, 42, 6] gdkDefaultOptions
    iconvDefaultOptions rfl

/-- C2: The dependency declaration (`requirements` and
`build_requirements`) is a pure function of the current option values: two
recipe states with the same option state — whatever their settings or
version — produce the same requirement lists, so invoking the declaration
twice with unchanged options yields an identical requirement set. -/
theorem gdk_requirements_pure :
    ∀ (r1 r2 : GdkRecipe), r1.options = r2.options →
    gdk_requirements r1 = gdk_requirements r2 ∧
    gdk_build_requirements r1 = gdk_build_requirements r2 := by
  intro r1 r2 h
  unfold gdk_requirements gdk_build_requirements
  rw [h]
  exact ⟨rfl, rfl⟩

/-- Witness for C2: two runs differing in settings and version but with the
same options declare the same requirements. -/
theorem gdk_requirements_pure_witness :
    gdk_requirements ⟨winMsvcSettings, [2, 42, 6], gdkDefaultOptions⟩ =
      gdk_requirements ⟨linuxGccSettings, [2, 40, 0], gdkDefaultOptions⟩ ∧
    gdk_build_requirements ⟨winMsvcSettings, [2, 42, 6], gdkDefaultOptions⟩ =
      gdk_build_requirements ⟨linuxGccSettings, [2, 40, 0], gdkDefaultOptions⟩ :=
  gdk_requirements_pure _ _ rfl

/-- C3: For gdk-pixbuf with any version >= 2.42.0, `config_options`
deletes `with_jasper`, so a configuration requesting `with_jasper` fails
fast with a configuration error (the option does not exist for that
version) rather than being silently ignored.  The host runtime's option
assignment is modelled from the spec (`gdk_requestWithJasper`). -/
theorem with_jasper_removed_request_fails :
    ∀ (s : Settings) (v : List Nat) (o : GdkOptions) (b : Bool),
    verGE v [2, 42, 0] = true →
    (gdk_config_options s v o).with_jasper = none ∧
    gdk_requestWithJasper (gdk_config_options s v o) b =
      Except.error (ConanError.optionNotExists "with_jasper") := by
  intro s v o b h
  unfold gdk_config_options gdk_requestWithJasper
  simp [h]

/-- Witness for C3 at the threshold version 2.42.0. -/
theorem with_jasper_removed_request_fails_witness :
    verGE [2, 42, 0] [2, 42, 0] = true ∧
    gdk_requestWithJasper
      (gdk_config_options linuxGccSettings [2, 42, 0] gdkDefaultOptions)
      true =
      Except.error (ConanError.optionNotExists "with_jasper") :=
  ⟨by decide,
   (with_jasper_removed_request_fails linuxGccSettings [2, 42, 0]
     gdkDefaultOptions true (by decide)).2⟩

/-- C4: For every gdk-pixbuf run whose target OS is Macos, the
configuration stage raises a configuration-invalid error and the pipeline
stops there: the source-acquisition stage never runs (no source is
fetched), whatever the version, options or upstream tree. -/
theorem gdk_macos_fails_before_source :
    ∀ (s : Settings) (v : List Nat) (o : GdkOptions) (t : SourceTree),
    s.os = OS.Macos →
    gdk_run_trace s v o t =
      ([Stage.configOptionsStage, Stage.configureStage],
       Except.error (ConanError.invalidConfiguration
         "This package does not support Macos currently")) ∧
    Stage.sourceStage ∉ (gdk_run_trace s v o t).1 := by
  intro s v o t h
  have herr : gdk_configure s (gdk_config_options s v o) =
      Except.error (ConanError.invalidConfiguration
        "This package does not support Macos currently") := by
    unfold gdk_configure
    simp [h]
  have heq : gdk_run_trace s v o t =
      ([Stage.configOptionsStage, Stage.configureStage],
       Except.error (ConanError.invalidConfiguration
         "This package does not support Macos currently")) := by
    simp [gdk_run_trace, herr]
  exact ⟨heq, by rw [heq]; simp⟩

/-- Witness for C4 at a concrete Macos run. -/
theorem gdk_macos_fails_before_source_witness :
    gdk_run_trace macosSettings [2, 42, 6] gdkDefaultOptions [] =
      ([Stage.configOptionsStage, Stage.configureStage],
       Except.error (ConanError.invalidConfiguration
         "This package does not support Macos currently")) ∧
    Stage.sourceStage ∉
      (gdk_run_trace macosSettings [2, 42, 6] gdkDefaultOptions []).1 :=
  gdk_macos_fails_before_source macosSettings [2, 42, 6] gdkDefaultOptions []
    rfl

/-- C8: libiconv's autotools configuration maps `shared=True` to
`--disable-static --enable-shared` and `shared=False` to
`--enable-static --disable-shared`, and on MSVC-like toolchains selects the
host triple by architecture: x86 maps to i686-w64-mingw32 and x86_64 to
x86_64-w64-mingw32. -/
theorem libiconv_autotools_args_and_host :
    ∀ (s : Settings) (o : IconvOptions),
    (o.shared = true →
      (libiconv_configure_autotools s o).args =
        ["--disable-static", "--enable-shared"]) ∧
    (o.shared = false →
      (libiconv_configure_autotools s o).args =
        ["--enable-static", "--disable-shared"]) ∧
    ((libiconv_is_msvc s || libiconv_is_clang_cl s) = true →
      (s.arch = Arch.x86 →
        (libiconv_configure_autotools s o).host = some "i686-w64-mingw32") ∧
      (s.arch = Arch.x86_64 →
        (libiconv_configure_autotools s o).host = some "x86_64-w64-mingw32")) := by
  intro s o
  unfold libiconv_configure_autotools
  refine ⟨?_, ?_, ?_⟩
  · intro h
    simp [h]
  · intro h
    simp [h]
  · intro h
    constructor <;> intro ha <;> simp [h, ha]

/-- Witness for C8: shared and static argument pairs, and the x86_64
triple on msvc. -/
theorem libiconv_autotools_args_and_host_witness :
    (libiconv_configure_autotools winMsvcSettings ⟨true, none⟩).args =
      ["--disable-static", "--enable-shared"] ∧
    (libiconv_configure_autotools linuxGccSettings iconvDefaultOptions).args =
      ["--enable-static", "--disable-shared"] ∧
    (libiconv_configure_autotools winMsvcSettings iconvDefaultOptions).host =
      some "x86_64-w64-mingw32" :=
  ⟨(libiconv_autotools_args_and_host winMsvcSettings ⟨true, none⟩).1 rfl,
   (libiconv_autotools_args_and_host linuxGccSettings iconvDefaultOptions).2.1
     rfl,
   ((libiconv_autotools_args_and_host winMsvcSettings
       iconvDefaultOptions).2.2 (by decide)).2 rfl⟩

/-- C10: For gdk-pixbuf, the link-time requirement set contains
glib/2.70.4 for every option valuation (glib is required unconditionally,
independent of every codec option), and — unlike glib — each other
link-time dependency is option-conditional: there is a valuation where the
requirement set is exactly glib, and one where every codec dependency
appears. -/
theorem gdk_glib_required_unconditionally :
    (∀ r : GdkRecipe,
      (⟨"glib", "2.70.4"⟩ : Requirement) ∈ gdk_requirements r) ∧
    (∃ r : GdkRecipe, (gdk_requirements r).map Requirement.name = ["glib"]) ∧
    (∃ r : GdkRecipe,
      (gdk_requirements r).map Requirement.name =
        ["glib", "libpng", "libtiff", "libjpeg-turbo", "jasper"]) := by
  refine ⟨?_, ?_, ?_⟩
  · intro r
    unfold gdk_requirements
    simp
  · exact ⟨⟨linuxGccSettings, [2, 40, 0],
      { shared := false, fPIC := some true, with_libpng := false
        with_libtiff := false, with_libjpeg := Libjpeg.off
        with_jasper := some false, with_introspection := false }⟩,
      by decide⟩
  · exact ⟨⟨linuxGccSettings, [2, 40, 0],
      { shared := false, fPIC := some true, with_libpng := true
        with_libtiff := true, with_libjpeg := Libjpeg.libjpegTurbo
        with_jasper := some true, with_introspection := false }⟩,
      by decide⟩

/-- A successful edit found its match target. -/
lemma applyEdit_ok_found (t t' : SourceTree) (e : Edit)
    (h : applyEdit t e = Except.ok t') :
    ∃ c, treeLookup t e.path = some c ∧ e.search ∈ c := by
  unfold applyEdit replace_in_file at h
  cases hc : treeLookup t e.path with
  | none =>
    rw [hc] at h
    simp at h
  | some c =>
    rw [hc] at h
    by_cases hm : e.search ∈ c
    · exact ⟨c, rfl, hm⟩
    · simp [hm] at h

/-- A successful edit sequence found every match target along the way. -/
lemma applyEdits_ok_found (es : List Edit) :
    ∀ t t', applyEdits t es = Except.ok t' → EditsAllFound t es := by
  induction es with
  | nil =>
    intro t t' _
    trivial
  | cons e es ih =>
    intro t t' h
    unfold applyEdits at h
    cases ha : applyEdit t e with
    | error err =>
      rw [ha] at h
      simp at h
    | ok t1 =>
      rw [ha] at h
      refine ⟨applyEdit_ok_found t t1 e ha, ?_⟩
      intro t2 h2
      rw [ha] at h2
      cases h2
      exact ih t1 t' h

/-- C6: Every source edit is an exact match-and-replace that fails the run
loudly when its match target is not found: an edit whose target is absent
never returns success; a successful `source` (gdk-pixbuf) or
`_patch_sources` (libiconv) run found every target; and each edit occurs
exactly once in the per-build edit sequence (the sequences are
duplicate-free). -/
theorem source_edits_strict :
    (∀ (t : SourceTree) (e : Edit),
      (treeLookup t e.path).all (fun c => !(decide (e.search ∈ c))) = true →
      ∀ t', applyEdit t e ≠ Except.ok t') ∧
    (∀ (v : List Nat) (t t' : SourceTree),
      gdk_source v t = Except.ok t' → EditsAllFound t (gdk_edits v)) ∧
    (∀ (t t' : SourceTree),
      libiconv_patch_sources t = Except.ok t' →
      EditsAllFound t libiconv_edits) ∧
    (∀ v : List Nat, (gdk_edits v).Nodup) ∧
    libiconv_edits.Nodup := by
  refine ⟨?_, ?_, ?_, ?_, ?_⟩
  · intro t e habs t' hok
    obtain ⟨c, hc, hm⟩ := applyEdit_ok_found t t' e hok
    rw [hc] at habs
    simp [Option.all] at habs
    exact habs hm
  · intro v t t' h
    exact applyEdits_ok_found (gdk_edits v) t t' h
  · intro t t' h
    exact applyEdits_ok_found libiconv_edits t t' h
  · intro v
    unfold gdk_edits
    cases hv : verGE v [2, 42, 6] <;> simp [hv]
  · decide

/-- Witness for C6: a concrete absent-target edit is rejected, and a
concrete successful gdk-pixbuf source run found every target. -/
theorem source_edits_strict_witness :
    (applyEdit [("meson.build", ["x"])] ⟨"meson.build", "y", "z"⟩ ≠
      Except.ok [("meson.build", ["x"])]) ∧
    EditsAllFound
      [("meson.build",
        ["subdir(\x27tests\x27)", "subdir(\x27thumbnailer\x27)",
         "gmodule_dep.get_pkgconfig_variable(\x27gmodule_supported\x27)"])]
      (gdk_edits [2, 41, 0]) :=
  ⟨source_edits_strict.1 [("meson.build", ["x"])] ⟨"meson.build", "y", "z"⟩
     (by decide) [("meson.build", ["x"])],
   source_edits_strict.2.1 [2, 41, 0]
     [("meson.build",
       ["subdir(\x27tests\x27)", "subdir(\x27thumbnailer\x27)",
        "gmodule_dep.get_pkgconfig_variable(\x27gmodule_supported\x27)"])]
     [("meson.build",
       ["#subdir(\x27tests\x27)", "#subdir(\x27thumbnailer\x27)",
        "\x27true\x27"])]
     rfl⟩

/-- Renaming puts the destination in the tree when the source was there. -/
lemma mem_map_rename_self (l : List String) (src dst : String)
    (h : src ∈ l) :
    dst ∈ l.map (fun p => if p = src then dst else p) :=
  List.mem_map.mpr ⟨src, h, by simp⟩

/-- Renaming keeps every other path. -/
lemma mem_map_rename_other (l : List String) (src dst x : String)
    (hx : x ∈ l) (hne : x ≠ src) :
    x ∈ l.map (fun p => if p = src then dst else p) :=
  List.mem_map.mpr ⟨x, hx, by simp [hne]⟩

/-- Renaming removes every occurrence of the source path. -/
lemma not_mem_map_rename_src (l : List String) (src dst : String)
    (hne : dst ≠ src) :
    src ∉ l.map (fun p => if p = src then dst else p) := by
  intro hmem
  obtain ⟨q, hq, hfq⟩ := List.mem_map.mp hmem
  by_cases hqs : q = src
  · rw [hqs] at hfq
    simp at hfq
    exact hne hfq
  · simp [hqs] at hfq

/-- Renaming introduces no path other than the destination. -/
lemma not_mem_map_rename_absent (l : List String) (src dst x : String)
    (hx : x ∉ l) (hxd : x ≠ dst) :
    x ∉ l.map (fun p => if p = src then dst else p) := by
  intro hmem
  obtain ⟨q, hq, hfq⟩ := List.mem_map.mp hmem
  by_cases hqs : q = src
  · rw [hqs] at hfq
    simp at hfq
    exact hxd hfq.symm
  · simp [hqs] at hfq
    rw [hfq] at hq
    exact hx hq

/-- A path that survives the libiconv removal steps. -/
lemma mem_libiconv_removals (t : List String) (x : String) (hx : x ∈ t)
    (hmask : (!(strHasPre "lib/" x && strHasSuffix ".la" x)) = true)
    (hshare : (!(strHasPre ("share" ++ "/") x)) = true) :
    x ∈ rmdirTree (removeByMask ("licenses/COPYING.LIB" :: t) "lib/" ".la")
      "share" := by
  unfold rmdirTree removeByMask
  rw [List.mem_filter]
  exact ⟨List.mem_filter.mpr ⟨List.mem_cons_of_mem _ hx, hmask⟩, hshare⟩

/-- C5: For libiconv with `shared=True` on an MSVC-like toolchain
(Visual Studio/msvc, or clang on Windows), the package stage renames the
installed import libraries `iconv.dll.lib` and `charset.dll.lib` to
`iconv.lib` and `charset.lib`; for any other compiler or for static builds
the package stage performs no rename — its output is exactly the
removal-only result. -/
theorem libiconv_import_lib_renamed :
    ∀ (s : Settings) (o : IconvOptions) (t : List String),
    (((libiconv_is_msvc s || libiconv_is_clang_cl s) && o.shared) = true →
      "lib/iconv.dll.lib" ∈ t → "lib/charset.dll.lib" ∈ t →
      exceptOk (libiconv_package s o t) = true ∧
      ∀ t', libiconv_package s o t = Except.ok t' →
        "lib/iconv.lib" ∈ t' ∧ "lib/charset.lib" ∈ t' ∧
        "lib/iconv.dll.lib" ∉ t' ∧ "lib/charset.dll.lib" ∉ t') ∧
    (((libiconv_is_msvc s || libiconv_is_clang_cl s) && o.shared) = false →
      libiconv_package s o t =
        Except.ok (rmdirTree
          (removeByMask ("licenses/COPYING.LIB" :: t) "lib/" ".la")
          "share")) := by
  intro s o t
  constructor
  · intro hcond h1 h2
    have hm1 : "lib/iconv.dll.lib" ∈
        rmdirTree (removeByMask ("licenses/COPYING.LIB" :: t) "lib/" ".la")
          "share" :=
      mem_libiconv_removals t _ h1 (by decide) (by decide)
    have hm2 : "lib/charset.dll.lib" ∈
        rmdirTree (removeByMask ("licenses/COPYING.LIB" :: t) "lib/" ".la")
          "share" :=
      mem_libiconv_removals t _ h2 (by decide) (by decide)
    have hr1 : renameFile
        (rmdirTree (removeByMask ("licenses/COPYING.LIB" :: t) "lib/" ".la")
          "share") "lib/iconv.dll.lib" "lib/iconv.lib" =
        Except.ok ((rmdirTree
          (removeByMask ("licenses/COPYING.LIB" :: t) "lib/" ".la")
          "share").map
          (fun p => if p = "lib/iconv.dll.lib" then "lib/iconv.lib" else p)) := by
      unfold renameFile
      rw [if_pos hm1]
    have hm2' : "lib/charset.dll.lib" ∈
        (rmdirTree (removeByMask ("licenses/COPYING.LIB" :: t) "lib/" ".la")
          "share").map
          (fun p => if p = "lib/iconv.dll.lib" then "lib/iconv.lib" else p) :=
      mem_map_rename_other _ _ _ _ hm2 (by decide)
    have hr2 : renameFile
        ((rmdirTree (removeByMask ("licenses/COPYING.LIB" :: t) "lib/" ".la")
          "share").map
          (fun p => if p = "lib/iconv.dll.lib" then "lib/iconv.lib" else p))
        "lib/charset.dll.lib" "lib/charset.lib" =
        Except.ok (((rmdirTree
          (removeByMask ("licenses/COPYING.LIB" :: t) "lib/" ".la")
          "share").map
          (fun p => if p = "lib/iconv.dll.lib" then "lib/iconv.lib" else p)).map
          (fun p => if p = "lib/charset.dll.lib" then "lib/charset.lib" else p)) := by
      unfold renameFile
      rw [if_pos hm2']
    have hpkg : libiconv_package s o t =
        Except.ok (((rmdirTree
          (removeByMask ("licenses/COPYING.LIB" :: t) "lib/" ".la")
          "share").map
          (fun p => if p = "lib/iconv.dll.lib" then "lib/iconv.lib" else p)).map
          (fun p => if p = "lib/charset.dll.lib" then "lib/charset.lib" else p)) := by
      unfold libiconv_package
      simp only [hcond, if_true, hr1, hr2]
    refine ⟨by rw [hpkg]; rfl, ?_⟩
    intro t' ht'
    rw [hpkg] at ht'
    cases ht'
    refine ⟨?_, ?_, ?_, ?_⟩
    · exact mem_map_rename_other _ _ _ _
        (mem_map_rename_self _ _ _ hm1) (by decide)
    · exact mem_map_rename_self _ _ _ hm2'
    · exact not_mem_map_rename_absent _ _ _ _
        (not_mem_map_rename_src _ _ _ (by decide)) (by decide)
    · exact not_mem_map_rename_src _ _ _ (by decide)
  · intro hcond
    unfold libiconv_package
    simp [hcond]

/-- Witness for C5: a concrete msvc shared run renames both import
libraries, and a concrete gcc static run performs no rename. -/
theorem libiconv_import_lib_renamed_witness :
    ("lib/iconv.lib" ∈
        ["licenses/COPYING.LIB", "include/iconv.h", "lib/iconv.lib",
         "lib/charset.lib", "bin/iconv.dll"] ∧
      "lib/charset.lib" ∈
        ["licenses/COPYING.LIB", "include/iconv.h", "lib/iconv.lib",
         "lib/charset.lib", "bin/iconv.dll"] ∧
      "lib/iconv.dll.lib" ∉
        ["licenses/COPYING.LIB", "include/iconv.h", "lib/iconv.lib",
         "lib/charset.lib", "bin/iconv.dll"] ∧
      "lib/charset.dll.lib" ∉
        ["licenses/COPYING.LIB", "include/iconv.h", "lib/iconv.lib",
         "lib/charset.lib", "bin/iconv.dll"]) ∧
    libiconv_package linuxGccSettings iconvDefaultOptions
        ["include/iconv.h", "lib/libiconv.a", "lib/libiconv.la", "share/doc"] =
      Except.ok (rmdirTree
        (removeByMask
          ("licenses/COPYING.LIB" ::
            ["include/iconv.h", "lib/libiconv.a", "lib/libiconv.la",
             "share/doc"]) "lib/" ".la") "share") :=
  ⟨((libiconv_import_lib_renamed winMsvcSettings ⟨true, none⟩
      ["include/iconv.h", "lib/iconv.dll.lib", "lib/charset.dll.lib",
       "bin/iconv.dll"]).1 (by decide) (by decide) (by decide)).2
      ["licenses/COPYING.LIB", "include/iconv.h", "lib/iconv.lib",
       "lib/charset.lib", "bin/iconv.dll"] rfl,
   (libiconv_import_lib_renamed linuxGccSettings iconvDefaultOptions
      ["include/iconv.h", "lib/libiconv.a", "lib/libiconv.la",
       "share/doc"]).2 (by decide)⟩

/-- Every path in a successful libiconv package output is one of the two
rename destinations or survived the removal steps. -/
lemma libiconv_package_mem (s : Settings) (o : IconvOptions)
    (t t' : List String) (h : libiconv_package s o t = Except.ok t')
    (p : String) (hp : p ∈ t') :
    p = "lib/iconv.lib" ∨ p = "lib/charset.lib" ∨
    p ∈ rmdirTree (removeByMask ("licenses/COPYING.LIB" :: t) "lib/" ".la")
      "share" := by
  unfold libiconv_package at h
  dsimp only [] at h
  split at h
  · cases hr1 : renameFile
        (rmdirTree (removeByMask ("licenses/COPYING.LIB" :: t) "lib/" ".la")
          "share") "lib/iconv.dll.lib" "lib/iconv.lib" with
    | error e =>
      rw [hr1] at h
      simp at h
    | ok t4 =>
      rw [hr1] at h
      dsimp only [] at h
      cases hr2 : renameFile t4 "lib/charset.dll.lib" "lib/charset.lib" with
      | error e =>
        rw [hr2] at h
        simp at h
      | ok t5 =>
        rw [hr2] at h
        simp only [Except.ok.injEq] at h
        subst h
        unfold renameFile at hr1 hr2
        split at hr1
        · cases hr1
          split at hr2
          · cases hr2
            obtain ⟨q1, hq1, hfq1⟩ := List.mem_map.mp hp
            obtain ⟨q0, hq0, hfq0⟩ := List.mem_map.mp hq1
            by_cases h1 : q1 = "lib/charset.dll.lib"
            · rw [if_pos h1] at hfq1
              exact Or.inr (Or.inl hfq1.symm)
            · rw [if_neg h1] at hfq1
              subst hfq1
              by_cases h0 : q0 = "lib/iconv.dll.lib"
              · rw [if_pos h0] at hfq0
                exact Or.inl hfq0.symm
              · rw [if_neg h0] at hfq0
                exact Or.inr (Or.inr (hfq0 ▸ hq0))
          · cases hr2
        · cases hr1
  · cases h
    exact Or.inr (Or.inr hp)

/-- A path that survived the two libiconv removal filters satisfies both
filter predicates. -/
lemma libiconv_removals_pred (t : List String) (p : String)
    (hp : p ∈ rmdirTree (removeByMask ("licenses/COPYING.LIB" :: t)
      "lib/" ".la") "share") :
    ((!(strHasPre "lib/" p && strHasSuffix ".la" p)) &&
      (!(strHasPre ("share" ++ "/") p))) = true := by
  unfold rmdirTree removeByMask at hp
  rw [List.mem_filter] at hp
  obtain ⟨hp1, hshare⟩ := hp
  rw [List.mem_filter] at hp1
  obtain ⟨_, hmask⟩ := hp1
  have hshare' : strHasPre "share/" p = false := by simpa using hshare
  simp [hmask, hshare']

/-- C7 counterexample: the claim that after the package stage the output
tree contains no `*.la` file is false for gdk-pixbuf — its package stage
performs no `*.la` removal, so a static run whose install tree contains
`lib/libfoo.la` keeps it in the packaged output. -/
theorem gdk_package_keeps_la_counterexample :
    gdkDefaultOptions.shared = false ∧
    gdk_package linuxGccSettings gdkDefaultOptions ["lib/libfoo.la"] =
      Except.ok ["licenses/COPYING", "lib/libfoo.la"] ∧
    strHasSuffix ".la" "lib/libfoo.la" = true ∧
    "lib/libfoo.la" ∈ ["licenses/COPYING", "lib/libfoo.la"] := by
  refine ⟨rfl, rfl, rfl, by simp⟩

/-- C7 (amended): after the package stage, libiconv's output contains no
`*.la` file under `lib` and nothing under `share`, and gdk-pixbuf's output
contains nothing under `lib/pkgconfig` and nothing under `share` — for
every configuration, static ones included.  (gdk-pixbuf performs no `*.la`
removal, and libiconv no `lib/pkgconfig` removal; those halves hold only
when the build system's install tree already lacks such files.) -/
theorem package_output_pruned :
    ∀ (s : Settings) (oi : IconvOptions) (og : GdkOptions)
      (t t' : List String),
    (libiconv_package s oi t = Except.ok t' →
      (t'.all (fun p => (!(strHasPre "lib/" p && strHasSuffix ".la" p)) &&
        (!(strHasPre "share/" p)))) = true) ∧
    (gdk_package s og t = Except.ok t' →
      (t'.all (fun p => (!(strHasPre "lib/pkgconfig/" p)) &&
        (!(strHasPre "share/" p)))) = true) := by
  intro s oi og t t'
  constructor
  · intro h
    rw [List.all_eq_true]
    intro p hp
    rcases libiconv_package_mem s oi t t' h p hp with h1 | h1 | h1
    · subst h1
      decide
    · subst h1
      decide
    · have h2 := libiconv_removals_pred t p h1
      simpa using h2
  · intro h
    unfold gdk_package at h
    dsimp only [] at h
    split at h
    · simp at h
    · simp only [Except.ok.injEq] at h
      subst h
      rw [List.all_eq_true]
      intro p hp
      unfold removeByMask rmdirTree at hp
      rw [List.mem_filter] at hp
      obtain ⟨hp1, _⟩ := hp
      rw [List.mem_filter] at hp1
      obtain ⟨hp2, hshare⟩ := hp1
      rw [List.mem_filter] at hp2
      obtain ⟨_, hpkg⟩ := hp2
      have hshare' : strHasPre "share/" p = false := by simpa using hshare
      have hpkg' : strHasPre "lib/pkgconfig/" p = false := by simpa using hpkg
      simp [hshare', hpkg']

/-- Witness for C7 (amended) at concrete static runs of both recipes. -/
theorem package_output_pruned_witness :
    (["licenses/COPYING.LIB", "lib/libiconv.a"].all
        (fun p => (!(strHasPre "lib/" p && strHasSuffix ".la" p)) &&
          (!(strHasPre "share/" p)))) = true ∧
    (["licenses/COPYING", "lib/libgdk.a"].all
        (fun p => (!(strHasPre "lib/pkgconfig/" p)) &&
          (!(strHasPre "share/" p)))) = true :=
  ⟨(package_output_pruned linuxGccSettings iconvDefaultOptions
      gdkDefaultOptions ["lib/libiconv.la", "lib/libiconv.a", "share/doc/x"]
      ["licenses/COPYING.LIB", "lib/libiconv.a"]).1 rfl,
   (package_output_pruned linuxGccSettings iconvDefaultOptions
      gdkDefaultOptions
      ["lib/pkgconfig/gdk-pixbuf-2.0.pc", "share/man1", "lib/libgdk.a"]
      ["licenses/COPYING", "lib/libgdk.a"]).2 rfl⟩

/-- C9 counterexample: the claim that the declared library names always
equal the set of library binaries in the installed tree is false for
libiconv — its `package_info` declares the fixed list
`["iconv", "charset"]` without looking at the tree, so a tree holding only
the iconv library still gets `charset` declared. -/
theorem libiconv_libs_not_from_tree_counterexample :
    (libiconv_package_info ["lib/libiconv.a"]).libs = ["iconv", "charset"] ∧
    collect_libs ["lib/libiconv.a"] = ["iconv"] ∧
    (libiconv_package_info ["lib/libiconv.a"]).libs ≠
      collect_libs ["lib/libiconv.a"] := by
  refine ⟨rfl, rfl, by decide⟩

/-- C9 (amended): gdk-pixbuf's `package_info` computes the published
library list from the final package directory (`collect_libs`); libiconv's
declares the fixed list `["iconv", "charset"]` independent of the
directory, which coincides with the produced set exactly when the tree's
library binaries are iconv and charset (the normal outcome of its package
stage). -/
theorem package_info_libs :
    (∀ (s : Settings) (o : GdkOptions) (t : List String),
      (gdk_package_info s o t).libs = collect_libs t) ∧
    (∀ t : List String,
      (libiconv_package_info t).libs = ["iconv", "charset"]) ∧
    (∀ t : List String, collect_libs t = ["iconv", "charset"] →
      (libiconv_package_info t).libs = collect_libs t) :=
  ⟨fun _ _ _ => rfl, fun _ => rfl, fun _ h => by rw [h]; rfl⟩

/-- Witness for C9 (amended) at a tree holding exactly the two libiconv
libraries. -/
theorem package_info_libs_witness :
    (libiconv_package_info ["lib/libiconv.a", "lib/libcharset.a"]).libs =
      collect_libs ["lib/libiconv.a", "lib/libcharset.a"] :=
  package_info_libs.2.2 ["lib/libiconv.a", "lib/libcharset.a"] rfl

end ConanCCI
